import Mathlib

/-!
Verification development for the Emotion_understanding repository
(src/realsense-camera-test.py and src/webcam-test.py).

The two Python scripts are shallowly embedded below.  External effects are
modelled by oracles: a `ProbeEnv` says which device indices open under which
OpenCV backend, a `WcEnv` (resp. `RsEnv`) supplies the per-iteration results
of the capture and key-poll calls of the streaming loop, and console output
is abstracted into outcome constructors.  Python integers are `Int` (the
bitmask `key & 0xFF` is `key % 256`, which agrees with Python bitwise AND
for every integer, negative ones included); device indices are `Int` as
well since they flow through Python `int` parsing and comparison.
-/

namespace EmotionUnderstanding

/-- The two OpenCV backends tried by the probe loop of webcam-test.py
(lines 19 and 28): `cv2.CAP_ANY` and `cv2.CAP_V4L2`. -/
inductive Backend
  | cap_any
  | cap_v4l2
deriving DecidableEq, Repr

/-- Events observable during the probe loop: an open attempt on a given
index with a given backend, and the release of a probe handle. -/
inductive ProbeEvent
  | openAttempt (idx : Nat) (backend : Backend)
  | release (idx : Nat) (backend : Backend)
deriving DecidableEq, Repr

/-- Oracle for the device-probing calls: whether `cv2.VideoCapture(i, b)`
reports `isOpened()` for index `i` under each backend. -/
structure ProbeEnv where
  anyOpens : Nat → Bool
  v4l2Opens : Nat → Bool

/-- One iteration of the probe loop, webcam-test.py lines 16-32: try
`CAP_ANY` first; only if it is not opened, try `CAP_V4L2`.  Returns the
events in order and whether the index was recorded as available. -/
def probeIndex (env : ProbeEnv) (i : Nat) : List ProbeEvent × Bool :=
  if env.anyOpens i then
    ([.openAttempt i .cap_any, .release i .cap_any], true)
  else
    if env.v4l2Opens i then
      ([.openAttempt i .cap_any, .openAttempt i .cap_v4l2,
        .release i .cap_v4l2], true)
    else
      ([.openAttempt i .cap_any, .openAttempt i .cap_v4l2], false)

/-- The `available_indices` list built by the probe loop: starting from the
empty list, each recorded index is appended in order for `i in range(5)`
(webcam-test.py lines 12, 16-32). -/
def availableIndices (env : ProbeEnv) : List Int :=
  (List.range 5).foldl
    (fun acc i => if (probeIndex env i).2 then acc ++ [(i : Int)] else acc) []

/-- Insertion of an element into a sorted list, used to model the effect of
the Python builtin `sorted`. -/
def insertSorted (x : Int) : List Int → List Int
  | [] => [x]
  | y :: ys => if x ≤ y then x :: y :: ys else y :: insertSorted x ys

/-- Insertion sort, modelling the Python builtin `sorted`. -/
def sortList (l : List Int) : List Int :=
  l.foldr insertSorted []

/-- `sorted(list(set(l)))` of webcam-test.py line 47: remove duplicates,
then sort ascending.  (Python set iteration order is unspecified, but the
final `sorted` makes the composite order-independent, so deduplicating by
first occurrence before sorting yields the same list.) -/
def sortedUnique (l : List Int) : List Int :=
  sortList l.dedup

/-- Result of the selection logic of webcam-test.py lines 36-62. -/
inductive SelectResult
  | noDevice
  | selected (i : Int)
  | invalidSelection
  | invalidInput
deriving DecidableEq, Repr

/-- Selection logic of webcam-test.py lines 36-62.  `userInput` is the
result of `int(input(...))`: `none` models a `ValueError` from a
non-integer entry.  The `Bool` component records whether `input()` was
called (the prompt is reached only in the multi-camera branch). -/
def selectCamera (avail : List Int) (userInput : Option Int) :
    Bool × SelectResult :=
  if avail.length == 0 then
    (false, .noDevice)
  else
    if avail.length == 1 then
      (false, .selected avail[0]!)
    else
      let unique := sortedUnique avail
      match userInput with
      | none => (true, .invalidInput)
      | some c =>
          if c ∈ unique then (true, .selected c) else (true, .invalidSelection)

/-- How a streaming loop ends: quit-key break, stream end (webcam read
returned false), or an exception propagating out of the loop body. -/
inductive ExitReason
  | quitKey
  | streamEnd
  | exception
deriving DecidableEq, Repr

/-- Cleanup statements appearing after the streaming loops. -/
inductive CleanupAction
  | printMsg
  | pipelineStop
  | destroyAllWindows
  | capRelease
deriving DecidableEq, Repr

/-- Cleanup of run_realsense, realsense-camera-test.py lines 77-81.  The
`finally` block contains only the print (line 79); `pipeline.stop()` and
`cv2.destroyAllWindows()` (lines 80-81) are indented at function level,
after the whole try statement.  By Python semantics, when the loop body
raises, the `finally` block runs and then the exception propagates out of
the function, so lines 80-81 are never reached; they run only when the try
statement completes normally (quit-key `break`). -/
def realsenseCleanup (r : ExitReason) : List CleanupAction :=
  match r with
  | .exception => [.printMsg]
  | _ => [.printMsg, .pipelineStop, .destroyAllWindows]

/-- Cleanup of run_webcam, webcam-test.py lines 91-95: the print,
`cap.release()` and `cv2.destroyAllWindows()` are all inside the `finally`
block, so they run on every exit of the loop, exceptions included. -/
def webcamCleanup (_ : ExitReason) : List CleanupAction :=
  [.printMsg, .capRelease, .destroyAllWindows]

/-- The quit test of both loops (realsense-camera-test.py line 74,
webcam-test.py line 88): `key & 0xFF == ord(q-char) or key == 27`.  For
every Python integer, `key & 0xFF` equals `key % 256` with a nonnegative
remainder, which is `Int.emod`.  The code of the q character is 113. -/
def quitCond (key : Int) : Bool :=
  (key % 256 == 113) || (key == 27)

/-- The literal timeout argument passed to `cv2.waitKey` in both loops
(realsense-camera-test.py line 73, webcam-test.py line 87). -/
def waitKeyBound : Nat := 1

/-- Outcome of one iteration of a streaming loop: continue to the next
iteration or leave the loop, each recording whether the iteration
displayed a frame. -/
inductive IterOutcome
  | next (displayedFrame : Bool)
  | halt (r : ExitReason) (displayedFrame : Bool)
deriving DecidableEq, Repr

/-- Whether the iteration displayed a frame. -/
def displayed : IterOutcome → Bool
  | .next d => d
  | .halt _ d => d

/-- One iteration of the RealSense loop body, realsense-camera-test.py
lines 38-75, given the validity of the aligned depth and color members and
the key returned by `cv2.waitKey(1)`: if either member is missing the
iteration is skipped with `continue` (line 49); otherwise the frame pair
is processed and displayed, and the quit test decides between `break` and
the next iteration. -/
def rsIter (depthOk colorOk : Bool) (key : Int) : IterOutcome :=
  if !depthOk || !colorOk then
    .next false
  else
    if quitCond key then .halt .quitKey true else .next true

/-- One iteration of the webcam loop body, webcam-test.py lines 74-89,
given the `ret` flag of `cap.read()` and the key returned by
`cv2.waitKey(1)`: a failed read breaks out of the loop (line 81) without
displaying; otherwise the frame is displayed and the quit test decides
between `break` and the next iteration. -/
def wcIter (ret : Bool) (key : Int) : IterOutcome :=
  if !ret then
    .halt .streamEnd false
  else
    if quitCond key then .halt .quitKey true else .next true

/-- Per-iteration oracle for the webcam streaming loop: the `ret` flag of
`cap.read()`, the key polled by `cv2.waitKey(1)`, and whether the body
raises an exception at that iteration. -/
structure WcEnv where
  reads : Nat → Bool
  keys : Nat → Int
  raises : Nat → Bool

/-- The webcam loop iteration at time `t`, with exceptions modelled as
halting the loop before the read. -/
def wcIterAt (env : WcEnv) (t : Nat) : IterOutcome :=
  if env.raises t then .halt .exception false
  else wcIter (env.reads t) (env.keys t)

/-- Fuel-bounded run of a streaming loop from iteration `t`: returns the
list of (iteration, displayed) records and the exit reason (`none` when
the fuel ran out with the loop still streaming). -/
def runLoop (iter : Nat → IterOutcome) : Nat → Nat →
    List (Nat × Bool) × Option ExitReason
  | 0, _ => ([], none)
  | fuel + 1, t =>
    match iter t with
    | .next d =>
        let (evs, r) := runLoop iter fuel (t + 1)
        ((t, d) :: evs, r)
    | .halt r d => ([(t, d)], some r)

/-- Terminal outcomes of run_webcam of webcam-test.py. -/
inductive WebcamOutcome
  | noDeviceFound
  | invalidInput
  | invalidSelection
  | openFailed
  | session (exit : Option ExitReason) (cleanup : List CleanupAction)
deriving DecidableEq, Repr

/-- Observable result of a run of run_webcam: whether `input()` was
called, which index (if any) was passed to `cv2.VideoCapture` for
streaming (line 67), and the terminal outcome. -/
structure RunResult where
  prompted : Bool
  streamOpen : Option Int
  outcome : WebcamOutcome
deriving DecidableEq, Repr

/-- run_webcam of webcam-test.py (lines 4-95): probe indices 0-4, run the
selection logic, then open the selected index for streaming (`openOk` is
the oracle for `cap.isOpened()` at line 69) and run the capture loop with
the try/finally cleanup of lines 91-95. -/
def run_webcam (env : ProbeEnv) (userInput : Option Int) (openOk : Bool)
    (lenv : WcEnv) (fuel : Nat) : RunResult :=
  match selectCamera (availableIndices env) userInput with
  | (p, .noDevice) => ⟨p, none, .noDeviceFound⟩
  | (p, .invalidInput) => ⟨p, none, .invalidInput⟩
  | (p, .invalidSelection) => ⟨p, none, .invalidSelection⟩
  | (p, .selected i) =>
      if !openOk then ⟨p, some i, .openFailed⟩
      else
        match (runLoop (wcIterAt lenv) fuel 0).2 with
        | some r => ⟨p, some i, .session (some r) (webcamCleanup r)⟩
        | none => ⟨p, some i, .session none []⟩

/-- Per-iteration oracle for the RealSense streaming loop: validity of the
aligned depth and color members returned at iteration `t` (Python
truthiness of `get_depth_frame()` / `get_color_frame()` after align), the
key polled by `cv2.waitKey(1)`, and whether the body raises (for instance
`wait_for_frames` timing out with an exception). -/
structure RsEnv where
  frames : Nat → Bool × Bool
  keys : Nat → Int
  raises : Nat → Bool

/-- The RealSense loop iteration at time `t`, exceptions halting the loop
before the frame fetch. -/
def rsIterAt (env : RsEnv) (t : Nat) : IterOutcome :=
  if env.raises t then .halt .exception false
  else rsIter (env.frames t).1 (env.frames t).2 (env.keys t)

/-- `cv2.convertScaleAbs(depth_image, alpha=0.03)` on one 16-bit sample
(realsense-camera-test.py line 60): scale by 0.03, round, saturate to the
8-bit range.  Modelled with exact rational scaling, round half up:
`min 255 ((3 * x + 50) / 100)`.  The rounding mode is irrelevant to every
property stated below (range bound, zero, saturation at 8500 and above),
which hold for any rounding of `0.03 * x` to a nearest integer. -/
def convertScaleAbs003 (x : Nat) : Nat :=
  min 255 ((3 * x + 50) / 100)

/-- `cv2.applyColorMap(cv2.convertScaleAbs(depth, alpha=0.03),
cv2.COLORMAP_JET)` (realsense-camera-test.py lines 59-62) over a depth
grid given as a list of rows.  The JET lookup table itself is the image
library collaborator, abstracted as `table`; each scaled 8-bit sample is
mapped through it to a 3-channel pixel. -/
def depthColormap (table : Nat → Nat × Nat × Nat)
    (depth : List (List Nat)) : List (List (Nat × Nat × Nat)) :=
  depth.map (fun row => row.map (fun v => table (convertScaleAbs003 v)))

/-- `np.hstack((a, b))` on two 2-D arrays given as lists of rows
(realsense-camera-test.py line 66): rows are concatenated pairwise.  The
numpy call is defined only when the two arrays have the same number of
rows; `zipWith` restricts to the common prefix, and the theorems below
take equal heights as a precondition. -/
def hstack {α : Type} (a b : List (List α)) : List (List α) :=
  List.zipWith (fun r s => r ++ s) a b

/-- Height (number of rows) of an image given as a list of rows. -/
def imgHeight {α : Type} (img : List (List α)) : Nat := img.length

/-- Concrete probe environment where no index opens under any backend. -/
def probeEnvNone : ProbeEnv := ⟨fun _ => false, fun _ => false⟩

/-- Concrete probe environment where only index 1 opens (under CAP_ANY). -/
def probeEnvOne : ProbeEnv := ⟨fun i => i == 1, fun _ => false⟩

/-- Concrete probe environment where indices 0 and 2 open (under CAP_ANY). -/
def probeEnvTwo : ProbeEnv := ⟨fun i => i == 0 || i == 2, fun _ => false⟩

/-- Concrete loop environment: every read succeeds, every poll returns 0,
nothing raises. -/
def wcEnvTriv : WcEnv := ⟨fun _ => true, fun _ => 0, fun _ => false⟩

/-! Helper lemmas. -/

theorem foldl_append_eq_filter_map {α β : Type} (p : α → Bool) (f : α → β)
    (l : List α) (acc : List β) :
    l.foldl (fun a i => if p i then a ++ [f i] else a) acc
      = acc ++ (l.filter p).map f := by
  induction l generalizing acc with
  | nil => simp
  | cons a l ih =>
    by_cases h : p a = true <;>
      simp [List.filter_cons, h, ih]

theorem availableIndices_eq_filter (env : ProbeEnv) :
    availableIndices env
      = ((List.range 5).filter (fun i => (probeIndex env i).2)).map
          Int.ofNat := by
  unfold availableIndices
  exact foldl_append_eq_filter_map (fun i => (probeIndex env i).2)
    Int.ofNat (List.range 5) []

theorem probeIndex_recorded (env : ProbeEnv) (i : Nat) :
    (probeIndex env i).2 = (env.anyOpens i || env.v4l2Opens i) := by
  cases h1 : env.anyOpens i <;> cases h2 : env.v4l2Opens i <;>
    simp [probeIndex, h1, h2]

theorem availableIndices_pairwise (env : ProbeEnv) :
    List.Pairwise (· < ·) (availableIndices env) := by
  rw [availableIndices_eq_filter]
  have h1 : List.Pairwise (· < ·)
      ((List.range 5).filter (fun i => (probeIndex env i).2)) :=
    (List.pairwise_lt_range 5).sublist (List.filter_sublist _)
  refine List.pairwise_map.mpr (List.Pairwise.imp ?_ h1)
  intro a b h
  exact Int.ofNat_lt.mpr h

theorem insertSorted_of_le (x : Int) (l : List Int) (h : ∀ y ∈ l, x ≤ y) :
    insertSorted x l = x :: l := by
  cases l with
  | nil => rfl
  | cons y ys => simp [insertSorted, h y (by simp)]

theorem sortList_eq_self (l : List Int) (h : List.Pairwise (· ≤ ·) l) :
    sortList l = l := by
  induction l with
  | nil => rfl
  | cons a l ih =>
    rcases List.pairwise_cons.mp h with ⟨ha, hl⟩
    have : sortList (a :: l) = insertSorted a (sortList l) := rfl
    rw [this, ih hl, insertSorted_of_le a l ha]

theorem sortedUnique_eq_self (l : List Int)
    (h : List.Pairwise (· < ·) l) : sortedUnique l = l := by
  have hnd : l.Nodup := h.imp ne_of_lt
  unfold sortedUnique
  rw [List.dedup_eq_self.mpr hnd]
  exact sortList_eq_self l (h.imp le_of_lt)

/-- C10: the list of available indices produced by the probe loop is
strictly ascending and duplicate free (the second backend is attempted
only when the first failed, so each index is appended at most once), and
therefore the sort-and-deduplicate step of the multi-camera branch leaves
the list unchanged. -/
theorem C10_probe_list_sorted (env : ProbeEnv) :
    List.Pairwise (· < ·) (availableIndices env) ∧
    (availableIndices env).Nodup ∧
    sortedUnique (availableIndices env) = availableIndices env := by
  refine ⟨availableIndices_pairwise env, ?_, ?_⟩
  · exact (availableIndices_pairwise env).imp ne_of_lt
  · exact sortedUnique_eq_self _ (availableIndices_pairwise env)

theorem mem_availableIndices (env : ProbeEnv) (i : Nat) :
    Int.ofNat i ∈ availableIndices env
      ↔ i < 5 ∧ (env.anyOpens i || env.v4l2Opens i) = true := by
  rw [availableIndices_eq_filter]
  constructor
  · intro h
    rcases List.mem_map.mp h with ⟨a, ha, hEq⟩
    obtain rfl : a = i := Int.ofNat.inj hEq
    rcases List.mem_filter.mp ha with ⟨hr, hp⟩
    exact ⟨List.mem_range.mp hr, (probeIndex_recorded env a) ▸ hp⟩
  · rintro ⟨h5, hrec⟩
    refine List.mem_map.mpr ⟨i, List.mem_filter.mpr ⟨List.mem_range.mpr h5, ?_⟩, rfl⟩
    rw [probeIndex_recorded]
    exact hrec

/-- C2: for every index i in [0, 5), the probe attempts CAP_ANY first and
attempts CAP_V4L2 exactly when the CAP_ANY attempt failed; i is recorded
as available exactly when either attempt succeeded, in which case the
probe handle is released immediately (the release of the successful
backend is the last probe event for i, and no release happens on
failure); and when the resulting list is empty, run_webcam ends with the
no-device-found outcome without prompting, opening, or streaming. -/
theorem C2_prober (env : ProbeEnv) :
    (∀ i, ProbeEvent.openAttempt i .cap_v4l2 ∈ (probeIndex env i).1
        ↔ env.anyOpens i = false) ∧
    (∀ i, (probeIndex env i).2 = (env.anyOpens i || env.v4l2Opens i)) ∧
    (∀ i, (probeIndex env i).2 = true →
        ∃ b, (probeIndex env i).1.getLast? = some (ProbeEvent.release i b) ∧
          ProbeEvent.openAttempt i b ∈ (probeIndex env i).1) ∧
    (∀ i b, (probeIndex env i).2 = false →
        ProbeEvent.release i b ∉ (probeIndex env i).1) ∧
    (∀ i, Int.ofNat i ∈ availableIndices env
        ↔ i < 5 ∧ (env.anyOpens i || env.v4l2Opens i) = true) ∧
    (availableIndices env = [] →
        ∀ inp openOk lenv fuel,
          run_webcam env inp openOk lenv fuel = ⟨false, none, .noDeviceFound⟩) := by
  refine ⟨?_, probeIndex_recorded env, ?_, ?_, mem_availableIndices env, ?_⟩
  · intro i
    cases h1 : env.anyOpens i <;> cases h2 : env.v4l2Opens i <;>
      simp [probeIndex, h1, h2]
  · intro i hrec
    cases h1 : env.anyOpens i <;> cases h2 : env.v4l2Opens i
    · rw [probeIndex_recorded, h1, h2] at hrec
      exact absurd hrec (by simp)
    · exact ⟨.cap_v4l2, by simp [probeIndex, h1, h2]⟩
    · exact ⟨.cap_any, by simp [probeIndex, h1]⟩
    · exact ⟨.cap_any, by simp [probeIndex, h1]⟩
  · intro i b hrec
    cases h1 : env.anyOpens i <;> cases h2 : env.v4l2Opens i <;>
      simp [probeIndex, h1, h2] at hrec ⊢
  · intro hE inp openOk lenv fuel
    simp [run_webcam, hE, selectCamera]

/-- Witness for C2 at a probe environment where nothing opens. -/
theorem C2_prober_witness :
    availableIndices probeEnvNone = [] ∧
    run_webcam probeEnvNone none true wcEnvTriv 3
      = ⟨false, none, .noDeviceFound⟩ := by
  refine ⟨by decide, ?_⟩
  exact (C2_prober probeEnvNone).2.2.2.2.2 (by decide) none true wcEnvTriv 3

/-- C8: for every probe result containing exactly one successful index i,
the selector returns i directly, and the prompted flag is false: the
result is the same for every user-input oracle, so no input is read. -/
theorem C8_single_index (i : Int) (inp : Option Int) :
    selectCamera [i] inp = (false, SelectResult.selected i) := by
  simp [selectCamera]

/-- C3: for every probe result with at least two indices and user
selection s: if s is a member of the discovered set the selector returns
s; on a non-member or non-integer input the selector reports the
invalid-selection (resp. invalid-input) outcome and run_webcam opens no
device for streaming afterwards. -/
theorem C3_selector (env : ProbeEnv) (inp : Option Int) (openOk : Bool)
    (lenv : WcEnv) (fuel : Nat)
    (h2 : 2 ≤ (availableIndices env).length) :
    (∀ s, inp = some s → s ∈ sortedUnique (availableIndices env) →
        (selectCamera (availableIndices env) inp).2 = .selected s) ∧
    (∀ s, inp = some s → s ∉ sortedUnique (availableIndices env) →
        (selectCamera (availableIndices env) inp).2 = .invalidSelection ∧
        (run_webcam env inp openOk lenv fuel).streamOpen = none) ∧
    (inp = none →
        (selectCamera (availableIndices env) inp).2 = .invalidInput ∧
        (run_webcam env inp openOk lenv fuel).streamOpen = none) := by
  have h0 : ((availableIndices env).length == 0) = false := by
    simp only [beq_eq_false_iff_ne, ne_eq]
    omega
  have h1 : ((availableIndices env).length == 1) = false := by
    simp only [beq_eq_false_iff_ne, ne_eq]
    omega
  refine ⟨?_, ?_, ?_⟩
  · rintro s rfl hmem
    simp [selectCamera, h0, h1, hmem]
  · rintro s rfl hmem
    constructor
    · simp [selectCamera, h0, h1, hmem]
    · simp [run_webcam, selectCamera, h0, h1, hmem]
  · rintro rfl
    constructor
    · simp [selectCamera, h0, h1]
    · simp [run_webcam, selectCamera, h0, h1]

/-- Witness for C3: probe found indices 0 and 2, the user entered 5, which
is not a member, and no device is opened for streaming. -/
theorem C3_selector_witness :
    2 ≤ (availableIndices probeEnvTwo).length ∧
    (run_webcam probeEnvTwo (some 5) true wcEnvTriv 3).streamOpen
      = none := by
  refine ⟨by decide, ?_⟩
  exact ((C3_selector probeEnvTwo (some 5) true wcEnvTriv 3
    (by decide)).2.1 5 rfl (by decide)).2

theorem run_webcam_streamOpen (env : ProbeEnv) (inp : Option Int)
    (openOk : Bool) (lenv : WcEnv) (fuel : Nat) :
    (run_webcam env inp openOk lenv fuel).streamOpen
      = match (selectCamera (availableIndices env) inp).2 with
        | .selected i => some i
        | _ => none := by
  unfold run_webcam
  rcases hsel : selectCamera (availableIndices env) inp with ⟨p, r⟩
  cases r with
  | noDevice => rfl
  | invalidInput => rfl
  | invalidSelection => rfl
  | selected j =>
      cases openOk with
      | true =>
          rcases hr : (runLoop (wcIterAt lenv) fuel 0).2 with _ | r2 <;>
            simp [hr]
      | false => rfl

/-- C4: in the webcam flow, the index opened for streaming is exactly the
index returned by the selection logic on the probe result; no other index
is ever passed to the streaming open call. -/
theorem C4_stream_opens_selected (env : ProbeEnv) (inp : Option Int)
    (openOk : Bool) (lenv : WcEnv) (fuel : Nat) (i : Int)
    (h : (run_webcam env inp openOk lenv fuel).streamOpen = some i) :
    (selectCamera (availableIndices env) inp).2 = .selected i := by
  have hs := run_webcam_streamOpen env inp openOk lenv fuel
  rw [h] at hs
  cases hsel : (selectCamera (availableIndices env) inp).2 with
  | noDevice => rw [hsel] at hs; cases hs
  | invalidInput => rw [hsel] at hs; cases hs
  | invalidSelection => rw [hsel] at hs; cases hs
  | selected j =>
      rw [hsel] at hs
      simp at hs
      rw [hs]

/-- Witness for C4: with only index 1 available, run_webcam opens index 1
for streaming, and the selector indeed selected 1. -/
theorem C4_stream_opens_selected_witness :
    (run_webcam probeEnvOne none true wcEnvTriv 1).streamOpen = some 1 ∧
    (selectCamera (availableIndices probeEnvOne) none).2
      = .selected 1 := by
  refine ⟨by decide, ?_⟩
  exact C4_stream_opens_selected probeEnvOne none true wcEnvTriv 1 1
    (by decide)

/-- C5: on a per-frame acquisition failure the RealSense iteration (a
missing depth or color member of the aligned pair) is skipped with no
error and the loop continues, the webcam iteration (read reports failure)
terminates the loop as stream end, and in both flows an iteration
displays a frame exactly when the acquisition succeeded, so a failed
frame is never processed or displayed. -/
theorem C5_acquisition_failure (d c r : Bool) (k : Int) :
    rsIter false c k = .next false ∧
    rsIter d false k = .next false ∧
    wcIter false k = .halt .streamEnd false ∧
    displayed (rsIter d c k) = (d && c) ∧
    displayed (wcIter r k) = r := by
  refine ⟨rfl, by cases d <;> rfl, rfl, ?_, ?_⟩
  · cases d <;> cases c
    · rfl
    · rfl
    · rfl
    · by_cases hq : quitCond k = true <;> simp [rsIter, displayed, hq]
  · cases r
    · rfl
    · by_cases hq : quitCond k = true <;> simp [wcIter, displayed, hq]

theorem convertScaleAbs003_zero : convertScaleAbs003 0 = 0 := by decide

/-- C6: every 16-bit depth sample scaled by 0.03 and clamped lies in
[0, 255] (being a Nat, the lower bound is implicit); an all-zero depth
grid colorizes uniformly to the low-end table color; and every sample at
or above 255 / 0.03 = 8500 saturates at 255 before colormapping. -/
theorem C6_depth_colorizer (x h w : Nat) (table : Nat → Nat × Nat × Nat) :
    convertScaleAbs003 x ≤ 255 ∧
    depthColormap table (List.replicate h (List.replicate w 0))
      = List.replicate h (List.replicate w (table 0)) ∧
    (8500 ≤ x → convertScaleAbs003 x = 255) := by
  refine ⟨Nat.min_le_left _ _, ?_, ?_⟩
  · simp [depthColormap, List.map_replicate, convertScaleAbs003_zero]
  · intro hx
    unfold convertScaleAbs003
    have h1 : 255 ≤ (3 * x + 50) / 100 := by omega
    exact Nat.min_eq_left h1

/-- Witness for C6 at the saturation threshold 8500 itself. -/
theorem C6_depth_colorizer_witness :
    8500 ≤ 8500 ∧ convertScaleAbs003 8500 = 255 :=
  ⟨le_refl _,
    (C6_depth_colorizer 8500 1 1 (fun v => (v, v, v))).2.2 (le_refl _)⟩

theorem hstack_row_length {α : Type} (a b : List (List α)) (w1 w2 : Nat)
    (hwa : ∀ r ∈ a, r.length = w1) (hwb : ∀ r ∈ b, r.length = w2) :
    ∀ r ∈ hstack a b, r.length = w1 + w2 := by
  induction a generalizing b with
  | nil => intro r hr; simp [hstack] at hr
  | cons x xs ih =>
      cases b with
      | nil => intro r hr; simp [hstack] at hr
      | cons y ys =>
          intro r hr
          simp only [hstack, List.zipWith_cons_cons] at hr
          rcases List.mem_cons.mp hr with hrx | hrx
          · subst hrx
            rw [List.length_append, hwa x (List.mem_cons_self _ _),
              hwb y (List.mem_cons_self _ _)]
          · exact ih ys (fun s hs => hwa s (List.mem_cons_of_mem _ hs))
              (fun s hs => hwb s (List.mem_cons_of_mem _ hs)) r hrx

/-- C7: for a color image and a colorized depth image of the same height,
the horizontally concatenated composite has that height and width equal
to the sum of the two input widths; equal heights enter as a
precondition, not as a checked runtime condition. -/
theorem C7_hstack_dims {α : Type} (a b : List (List α)) (hgt w1 w2 : Nat)
    (ha : a.length = hgt) (hb : b.length = hgt)
    (hwa : ∀ r ∈ a, r.length = w1) (hwb : ∀ r ∈ b, r.length = w2) :
    imgHeight (hstack a b) = hgt ∧
    ∀ r ∈ hstack a b, r.length = w1 + w2 := by
  constructor
  · unfold imgHeight hstack
    rw [List.length_zipWith, ha, hb, Nat.min_self]
  · exact hstack_row_length a b w1 w2 hwa hwb

/-- Witness for C7 on a concrete pair of single-row images. -/
theorem C7_hstack_dims_witness :
    imgHeight (hstack ([[1, 2]] : List (List Nat)) [[3]]) = 1 ∧
    ∀ r ∈ hstack ([[1, 2]] : List (List Nat)) [[3]], r.length = 2 + 1 :=
  C7_hstack_dims [[1, 2]] [[3]] 1 2 1 rfl rfl (by simp) (by simp)

/-- C9 fails as stated: the loops leave Streaming for every polled value
whose low byte equals the q character, not only for the value 113 itself;
at the concrete polled value 369 (low byte 113, as produced on platforms
that set modifier bits above the low byte) both loops quit although 369
is neither 113 nor 27. -/
theorem C9_counterexample :
    rsIter true true 369 = .halt .quitKey true ∧
    wcIter true 369 = .halt .quitKey true ∧
    ¬((369 : Int) = 113 ∨ (369 : Int) = 27) := by
  decide

/-- C9 (amended): in every iteration, after a successful frame is
displayed, a key is polled with a wait bound of 1 time-unit, and the loop
leaves Streaming via key input exactly when the polled value k satisfies
k % 256 = 113 (its low byte is the q character, the mask applied by the
code) or k = 27; any other polled value continues the loop. -/
theorem C9_key_poll (k : Int) :
    waitKeyBound = 1 ∧
    (rsIter true true k = .halt .quitKey true ↔ (k % 256 = 113 ∨ k = 27)) ∧
    (wcIter true k = .halt .quitKey true ↔ (k % 256 = 113 ∨ k = 27)) ∧
    (¬(k % 256 = 113 ∨ k = 27) →
        rsIter true true k = .next true ∧ wcIter true k = .next true) := by
  have hq : quitCond k = true ↔ (k % 256 = 113 ∨ k = 27) := by
    simp [quitCond]
  by_cases hc : quitCond k = true
  · have hp := hq.mp hc
    refine ⟨rfl, ?_, ?_, fun hn => absurd hp hn⟩
    · exact iff_of_true (by simp [rsIter, hc]) hp
    · exact iff_of_true (by simp [wcIter, hc]) hp
  · have hp : ¬(k % 256 = 113 ∨ k = 27) := fun hcon => hc (hq.mpr hcon)
    refine ⟨rfl, ?_, ?_, ?_⟩
    · exact iff_of_false (by simp [rsIter, hc]) hp
    · exact iff_of_false (by simp [wcIter, hc]) hp
    · exact fun _ => ⟨by simp [rsIter, hc], by simp [wcIter, hc]⟩

/-- Witness for C9 (amended) at the polled value 64, which matches
neither mapped key and therefore continues both loops. -/
theorem C9_key_poll_witness :
    ¬((64 : Int) % 256 = 113 ∨ (64 : Int) = 27) ∧
    rsIter true true 64 = .next true ∧ wcIter true 64 = .next true :=
  ⟨by decide, (C9_key_poll 64).2.2.2 (by decide)⟩

/-- C1 fails on run_realsense: because lines 80-81 of
realsense-camera-test.py are indented outside the finally block (which
contains only the print of line 79), an exception leaving the streaming
loop propagates past the finally and the pipeline stop and window
destruction never run (release count 0, not 1); the quit-key exit runs
them exactly once.  run_webcam (webcam-test.py lines 91-95) releases the
capture handle and the windows exactly once on every exit path. -/
theorem C1_release_evaluation :
    (runLoop (rsIterAt ⟨fun _ => (true, true), fun _ => 0, fun t => t == 2⟩)
        5 0).2 = some .exception ∧
    (realsenseCleanup .exception).count .pipelineStop = 0 ∧
    (realsenseCleanup .exception).count .destroyAllWindows = 0 ∧
    (realsenseCleanup .quitKey).count .pipelineStop = 1 ∧
    (realsenseCleanup .quitKey).count .destroyAllWindows = 1 ∧
    (webcamCleanup .exception).count .capRelease = 1 ∧
    (webcamCleanup .streamEnd).count .capRelease = 1 ∧
    (webcamCleanup .quitKey).count .capRelease = 1 ∧
    (webcamCleanup .exception).count .destroyAllWindows = 1 := by
  decide

end EmotionUnderstanding
